import Mathlib

/-!
Shallow embedding of the `github_rs` repository: a minimal GitHub REST API
client (src/src/auth.rs, src/src/errors.rs, src/src/client.rs) plus the
commit-creation example program (src/examples/commit_creation.rs).

HTTP transport is modelled as an oracle `Transport : Request → Option HttpResponse`
(`none` = no response obtained, i.e. connection failure).  A response body is
`Option Json`: `none` models a body on which `serde_json` decoding fails.
Auth headers are identical on every request (see `build_auth_headers`), so the
transport oracle keys on method, url and JSON body only.
-/

/-- JSON value model (serde_json::Value). -/
inductive Json where
  | null : Json
  | bool : Bool → Json
  | num : Int → Json
  | str : String → Json
  | arr : List Json → Json
  | obj : List (String × Json) → Json

mutual

/-- Structural boolean equality on JSON values. -/
def Json.beq : Json → Json → Bool
  | Json.null, Json.null => true
  | Json.bool a, Json.bool b => a == b
  | Json.num a, Json.num b => a == b
  | Json.str a, Json.str b => a == b
  | Json.arr a, Json.arr b => Json.beqArr a b
  | Json.obj a, Json.obj b => Json.beqObj a b
  | _, _ => false

def Json.beqArr : List Json → List Json → Bool
  | [], [] => true
  | x :: xs, y :: ys => Json.beq x y && Json.beqArr xs ys
  | _, _ => false

def Json.beqObj : List (String × Json) → List (String × Json) → Bool
  | [], [] => true
  | (k, v) :: xs, (l, w) :: ys => k == l && Json.beq v w && Json.beqObj xs ys
  | _, _ => false

end

/-- Object field lookup, Value::get(key): some value for the first matching
key of an object, none for a missing key or a non-object. -/
def Json.getField : Json → String → Option Json
  | Json.obj fields, key =>
    match fields.find? (fun kv => kv.1 == key) with
    | some kv => some kv.2
    | none => none
  | _, _ => none

/-- Value::as_str(): some string for a JSON string, none otherwise. -/
def Json.asStr : Json → Option String
  | Json.str s => some s
  | _ => none

/-! ## auth.rs -/

/-- A char is legal in an HTTP header value.  http::HeaderValue::from_str
accepts every byte b with 32 ≤ b ≠ 127, plus tab; stated on chars this is
the same condition on the code point, since an ASCII char is its own single
byte and every byte of a multi-byte UTF-8 char is ≥ 0x80 (hence legal, as is
the char-level test 32 ≤ code point ≠ 127 for such a char). -/
def legalHeaderChar (c : Char) : Bool :=
  (32 ≤ c.toNat && c.toNat ≠ 127) || c.toNat = 9

/-- All chars of the string are legal header-value chars. -/
def legalHeaderValue (s : String) : Bool :=
  s.data.all legalHeaderChar

/-- HeaderValue::from_str: some s when every byte is legal, none otherwise. -/
def HeaderValue.from_str (s : String) : Option String :=
  if legalHeaderValue s then some s else none

/-- build_auth_headers (src/src/auth.rs:26-39): inserts AUTHORIZATION with
value "token <token>" and ACCEPT with "application/vnd.github.v3+json" into a
fresh HeaderMap.  `none` models the `.expect("Invalid token format")` panic
when the authorization value has an illegal byte. -/
def build_auth_headers (token : String) : Option (List (String × String)) :=
  match HeaderValue.from_str ("token " ++ token) with
  | none => none
  | some auth =>
    match HeaderValue.from_str "application/vnd.github.v3+json" with
    | none => none
    | some acc => some [("authorization", auth), ("accept", acc)]

/-- std::env::VarError (the NotUnicode case is not modelled: environment
values are Lean strings). -/
inductive VarError where
  | NotPresent : VarError
deriving DecidableEq

/-- AuthToken (src/src/auth.rs): wraps the token string. -/
structure AuthToken where
  token : String
deriving DecidableEq

/-- AuthToken::new stores the token verbatim. -/
def AuthToken.new (token : String) : AuthToken := ⟨token⟩

/-- AuthToken::as_str returns the stored token. -/
def AuthToken.as_str (a : AuthToken) : String := a.token

/-- The byte offsets of s that are char boundaries: 0 and every cumulative
UTF-8 length of a prefix of chars. -/
def boundariesFrom : Nat → List Char → List Nat
  | n, [] => [n]
  | n, c :: cs => n :: boundariesFrom (n + c.utf8Size) cs

def byteBoundaries (s : String) : List Nat := boundariesFrom 0 s.data

/-- UTF-8 byte length of a string. -/
def utf8Len (s : String) : Nat := (s.data.map Char.utf8Size).sum

/-- The Rust byte-range slice &s[..n] succeeds iff n is a char boundary of s
(which forces n ≤ byte length); otherwise it panics. -/
def sliceOk (s : String) (n : Nat) : Bool := (byteBoundaries s).contains n

/-- AuthToken::from_env (src/src/auth.rs:11-19): reads GITHUB_TOKEN from the
environment; on absence returns the VarError.  When the token is present and
debug-level tracing is enabled for the event, the debug log evaluates
&token[..10], which panics (modelled as `none`) unless byte offset 10 is a
char boundary of the token.  `env` is the process environment after the
dotenv load; `debugEnabled` is the tracing filter decision for the
debug-level event. -/
def AuthToken.from_env (env : String → Option String) (debugEnabled : Bool) :
    Option (Except VarError AuthToken) :=
  match env "GITHUB_TOKEN" with
  | none => some (Except.error VarError.NotPresent)
  | some token =>
    if debugEnabled && !(sliceOk token 10) then none
    else some (Except.ok (AuthToken.new token))

/-! ## client.rs - error type and verb layer -/

/-- reqwest::Error, restricted to the ways the client can produce one:
a connection failure with no response, a Response::error_for_status error
carrying the status, or a Response::json body-decode failure. -/
inductive ReqError where
  | connection : ReqError
  | forStatus : Nat → ReqError
  | decode : ReqError
deriving DecidableEq

/-- reqwest::Error::status(): only error_for_status errors carry one. -/
def ReqError.statusOf : ReqError → Option Nat
  | ReqError.forStatus s => some s
  | _ => none

/-- GitHubError (src/src/client.rs:6-17). -/
inductive GitHubError where
  | RequestError : ReqError → GitHubError
  | ParseError : String → GitHubError
  | ApiError : Nat → String → GitHubError
deriving DecidableEq

/-- GitHubError::status (src/src/client.rs:19-27). -/
def GitHubError.status : GitHubError → Option Nat
  | GitHubError.RequestError e => e.statusOf
  | GitHubError.ApiError s _ => some s
  | GitHubError.ParseError _ => none

inductive Method where
  | GET : Method
  | POST : Method
  | PATCH : Method
deriving DecidableEq

/-- An HTTP request as the client hands it to the transport.  Auth headers,
identical on every request (build_auth_headers), are not part of the oracle
key. -/
structure Request where
  method : Method
  url : String
  body : Option Json

/-- A received response; `body = none` models a body that fails JSON
decoding in Response::json. -/
structure HttpResponse where
  status : Nat
  body : Option Json

/-- The transport oracle: none models no response obtained
(connection/DNS/TLS failure). -/
def Transport : Type := Request → Option HttpResponse

/-- StatusCode::is_success: 200..=299. -/
def isSuccess (s : Nat) : Bool := 200 ≤ s && s ≤ 299

/-- StatusCode::is_client_error or is_server_error: 400..=599; exactly the
statuses on which Response::error_for_status errs. -/
def isErrorStatus (s : Nat) : Bool := 400 ≤ s && s ≤ 599

/-- GitHubClient (src/src/client.rs:29-33): the http handle is replaced by
the transport oracle passed to each method. -/
structure GitHubClient where
  token : AuthToken
  base_url : String

/-- GitHubClient::new: stores the token and the default base URL. -/
def GitHubClient.new (token : String) : GitHubClient :=
  ⟨AuthToken.new token, "https://api.github.com"⟩

/-- The GET request issued by GitHubClient::get for a path. -/
def GitHubClient.get_request (c : GitHubClient) (path : String) : Request :=
  ⟨Method.GET, c.base_url ++ path, none⟩

/-- GitHubClient::get (src/src/client.rs:55-84): concatenates base URL and
path, sends, then returns response.error_for_status(): an error carrying the
status iff the status is 4xx or 5xx, the raw response otherwise. -/
def GitHubClient.get (c : GitHubClient) (T : Transport) (path : String) :
    Except ReqError HttpResponse :=
  match T (c.get_request path) with
  | none => Except.error ReqError.connection
  | some r =>
    if isErrorStatus r.status then Except.error (ReqError.forStatus r.status)
    else Except.ok r

/-- The POST request issued by GitHubClient::post. -/
def GitHubClient.post_request (c : GitHubClient) (path : String) (body : Json) : Request :=
  ⟨Method.POST, c.base_url ++ path, some body⟩

/-- GitHubClient::post (src/src/client.rs:86-97): sends and returns the raw
response regardless of status. -/
def GitHubClient.post (c : GitHubClient) (T : Transport) (path : String) (body : Json) :
    Except ReqError HttpResponse :=
  match T (c.post_request path body) with
  | none => Except.error ReqError.connection
  | some r => Except.ok r

/-- The PATCH request issued by GitHubClient::patch. -/
def GitHubClient.patch_request (c : GitHubClient) (path : String) (body : Json) : Request :=
  ⟨Method.PATCH, c.base_url ++ path, some body⟩

/-- GitHubClient::patch (src/src/client.rs:99-109): sends and returns the raw
response regardless of status. -/
def GitHubClient.patch (c : GitHubClient) (T : Transport) (path : String) (body : Json) :
    Except ReqError HttpResponse :=
  match T (c.patch_request path body) with
  | none => Except.error ReqError.connection
  | some r => Except.ok r

/-! ## client.rs - domain methods -/

/-- error_json["message"].as_str().unwrap_or("Unknown error"): indexing a
non-object yields Null, whose as_str is none. -/
def errorMessage (j : Json) : String :=
  match (j.getField "message").bind Json.asStr with
  | some m => m
  | none => "Unknown error"

/-- The non-success branch shared by every domain method: decode the body as
JSON (a decode failure propagates through `?` as a RequestError) and fail
with the ApiError kind carrying status and extracted message. -/
def apiFailure (r : HttpResponse) : GitHubError :=
  match r.body with
  | none => GitHubError.RequestError ReqError.decode
  | some j => GitHubError.ApiError r.status (errorMessage j)

/-- Path built by get_base_branch_sha. -/
def get_base_branch_sha_path (owner repo base_branch : String) : String :=
  "/repos/" ++ owner ++ "/" ++ repo ++ "/git/ref/heads/" ++ base_branch

/-- The sha extraction json.get("object").and_then(get "sha").and_then(as_str). -/
def extractObjectSha (j : Json) : Option String :=
  ((j.getField "object").bind (fun o => o.getField "sha")).bind Json.asStr

/-- GitHubClient::get_base_branch_sha (src/src/client.rs:117-146). -/
def GitHubClient.get_base_branch_sha (c : GitHubClient) (T : Transport)
    (owner repo base_branch : String) : Except GitHubError String :=
  match c.get T (get_base_branch_sha_path owner repo base_branch) with
  | Except.error e => Except.error (GitHubError.RequestError e)
  | Except.ok r =>
    if !(isSuccess r.status) then Except.error (apiFailure r)
    else
      match r.body with
      | none => Except.error (GitHubError.RequestError ReqError.decode)
      | some j =>
        match extractObjectSha j with
        | some s => Except.ok s
        | none => Except.error (GitHubError.ParseError "Failed to extract SHA from response")

/-- The JSON body built by create_branch. -/
def create_branch_body (new_branch_name base_sha : String) : Json :=
  Json.obj [("ref", Json.str ("refs/heads/" ++ new_branch_name)),
            ("sha", Json.str base_sha)]

/-- GitHubClient::create_branch (src/src/client.rs:149-174). -/
def GitHubClient.create_branch (c : GitHubClient) (T : Transport)
    (owner repo new_branch_name base_sha : String) : Except GitHubError Unit :=
  match c.post T ("/repos/" ++ owner ++ "/" ++ repo ++ "/git/refs")
      (create_branch_body new_branch_name base_sha) with
  | Except.error e => Except.error (GitHubError.RequestError e)
  | Except.ok r =>
    if !(isSuccess r.status) then Except.error (apiFailure r)
    else Except.ok ()

/-- The sha extraction json.get("tree").and_then(get "sha").and_then(as_str). -/
def extractTreeSha (j : Json) : Option String :=
  ((j.getField "tree").bind (fun t => t.getField "sha")).bind Json.asStr

/-- GitHubClient::get_latest_tree_sha (src/src/client.rs:177-200). -/
def GitHubClient.get_latest_tree_sha (c : GitHubClient) (T : Transport)
    (owner repo commit_sha : String) : Except GitHubError String :=
  match c.get T ("/repos/" ++ owner ++ "/" ++ repo ++ "/git/commits/" ++ commit_sha) with
  | Except.error e => Except.error (GitHubError.RequestError e)
  | Except.ok r =>
    if !(isSuccess r.status) then Except.error (apiFailure r)
    else
      match r.body with
      | none => Except.error (GitHubError.RequestError ReqError.decode)
      | some j =>
        match extractTreeSha j with
        | some s => Except.ok s
        | none => Except.error (GitHubError.ParseError "Failed to extract tree SHA from response")

/-- The sha extraction json.get("sha").and_then(as_str). -/
def extractSha (j : Json) : Option String :=
  (j.getField "sha").bind Json.asStr

/-- The JSON body built by create_blob. -/
def create_blob_body (content : String) : Json :=
  Json.obj [("content", Json.str content), ("encoding", Json.str "utf-8")]

/-- GitHubClient::create_blob (src/src/client.rs:203-234). -/
def GitHubClient.create_blob (c : GitHubClient) (T : Transport)
    (owner repo content : String) : Except GitHubError String :=
  match c.post T ("/repos/" ++ owner ++ "/" ++ repo ++ "/git/blobs")
      (create_blob_body content) with
  | Except.error e => Except.error (GitHubError.RequestError e)
  | Except.ok r =>
    if !(isSuccess r.status) then Except.error (apiFailure r)
    else
      match r.body with
      | none => Except.error (GitHubError.RequestError ReqError.decode)
      | some j =>
        match extractSha j with
        | some s => Except.ok s
        | none => Except.error (GitHubError.ParseError "Failed to extract blob SHA from response")

/-- The JSON body built by create_tree. -/
def create_tree_body (base_tree path blob_sha : String) : Json :=
  Json.obj [("base_tree", Json.str base_tree),
            ("tree", Json.arr [Json.obj [("path", Json.str path),
                                         ("mode", Json.str "100644"),
                                         ("type", Json.str "blob"),
                                         ("sha", Json.str blob_sha)]])]

/-- GitHubClient::create_tree (src/src/client.rs:237-275). -/
def GitHubClient.create_tree (c : GitHubClient) (T : Transport)
    (owner repo base_tree path blob_sha : String) : Except GitHubError String :=
  match c.post T ("/repos/" ++ owner ++ "/" ++ repo ++ "/git/trees")
      (create_tree_body base_tree path blob_sha) with
  | Except.error e => Except.error (GitHubError.RequestError e)
  | Except.ok r =>
    if !(isSuccess r.status) then Except.error (apiFailure r)
    else
      match r.body with
      | none => Except.error (GitHubError.RequestError ReqError.decode)
      | some j =>
        match extractSha j with
        | some s => Except.ok s
        | none => Except.error (GitHubError.ParseError "Failed to extract tree SHA from response")

/-- The JSON body built by create_commit. -/
def create_commit_body (message tree_sha parent_sha : String) : Json :=
  Json.obj [("message", Json.str message),
            ("tree", Json.str tree_sha),
            ("parents", Json.arr [Json.str parent_sha])]

/-- GitHubClient::create_commit (src/src/client.rs:278-312). -/
def GitHubClient.create_commit (c : GitHubClient) (T : Transport)
    (owner repo message tree_sha parent_sha : String) : Except GitHubError String :=
  match c.post T ("/repos/" ++ owner ++ "/" ++ repo ++ "/git/commits")
      (create_commit_body message tree_sha parent_sha) with
  | Except.error e => Except.error (GitHubError.RequestError e)
  | Except.ok r =>
    if !(isSuccess r.status) then Except.error (apiFailure r)
    else
      match r.body with
      | none => Except.error (GitHubError.RequestError ReqError.decode)
      | some j =>
        match extractSha j with
        | some s => Except.ok s
        | none => Except.error (GitHubError.ParseError "Failed to extract commit SHA from response")

/-- The JSON body built by update_branch_reference. -/
def update_branch_reference_body (commit_sha : String) : Json :=
  Json.obj [("sha", Json.str commit_sha), ("force", Json.bool false)]

/-- GitHubClient::update_branch_reference (src/src/client.rs:315-341). -/
def GitHubClient.update_branch_reference (c : GitHubClient) (T : Transport)
    (owner repo branch_name commit_sha : String) : Except GitHubError Unit :=
  match c.patch T ("/repos/" ++ owner ++ "/" ++ repo ++ "/git/refs/heads/" ++ branch_name)
      (update_branch_reference_body commit_sha) with
  | Except.error e => Except.error (GitHubError.RequestError e)
  | Except.ok r =>
    if !(isSuccess r.status) then Except.error (apiFailure r)
    else Except.ok ()

/-! ## examples/commit_creation.rs -/

/-- main (src/examples/commit_creation.rs): the six-step commit-assembly
sequence with the example's literal arguments; returns the new commit SHA it
prints on success.  The `?` operator is the explicit error match. -/
def commitCreationMain (token : String) (T : Transport) : Except GitHubError String :=
  let client := GitHubClient.new token
  let owner := "owner"
  let repo := "repo"
  let branch := "main"
  let file_path := "example/test.txt"
  let file_content := "Hello, World!"
  let commit_message := "Add test.txt"
  match client.get_base_branch_sha T owner repo branch with
  | Except.error e => Except.error e
  | Except.ok base_commit_sha =>
    match client.get_latest_tree_sha T owner repo base_commit_sha with
    | Except.error e => Except.error e
    | Except.ok base_tree_sha =>
      match client.create_blob T owner repo file_content with
      | Except.error e => Except.error e
      | Except.ok blob_sha =>
        match client.create_tree T owner repo base_tree_sha file_path blob_sha with
        | Except.error e => Except.error e
        | Except.ok new_tree_sha =>
          match client.create_commit T owner repo commit_message new_tree_sha base_commit_sha with
          | Except.error e => Except.error e
          | Except.ok new_commit_sha =>
            match client.update_branch_reference T owner repo branch new_commit_sha with
            | Except.error e => Except.error e
            | Except.ok _ => Except.ok new_commit_sha

/-- A strict mock transport for the commit-assembly chain S0 → T0 → B1 → T1
→ C1: it answers exactly the six documented requests — each matched on
method, full url AND exact JSON body — and fails (none) on any other
request, so a run can only succeed if every step was called with the prior
step's output in the documented input field. -/
def chainMock : Transport := fun req =>
  let base := "https://api.github.com"
  match req.method, req.body with
  | Method.GET, none =>
    if req.url == base ++ "/repos/owner/repo/git/ref/heads/main" then
      some ⟨200, some (Json.obj [("object", Json.obj [("sha", Json.str "S0")])])⟩
    else if req.url == base ++ "/repos/owner/repo/git/commits/S0" then
      some ⟨200, some (Json.obj [("tree", Json.obj [("sha", Json.str "T0")])])⟩
    else none
  | Method.POST, some b =>
    if req.url == base ++ "/repos/owner/repo/git/blobs" &&
        Json.beq b (create_blob_body "Hello, World!") then
      some ⟨201, some (Json.obj [("sha", Json.str "B1")])⟩
    else if req.url == base ++ "/repos/owner/repo/git/trees" &&
        Json.beq b (create_tree_body "T0" "example/test.txt" "B1") then
      some ⟨201, some (Json.obj [("sha", Json.str "T1")])⟩
    else if req.url == base ++ "/repos/owner/repo/git/commits" &&
        Json.beq b (create_commit_body "Add test.txt" "T1" "S0") then
      some ⟨201, some (Json.obj [("sha", Json.str "C1")])⟩
    else none
  | Method.PATCH, some b =>
    if req.url == base ++ "/repos/owner/repo/git/refs/heads/main" &&
        Json.beq b (update_branch_reference_body "C1") then
      some ⟨200, some (Json.obj [])⟩
    else none
  | _, _ => none

/-! ## Helper lemmas -/

/-- A 2xx status is outside the 4xx/5xx range error_for_status rejects. -/
theorem isSuccess_isErrorStatus_false {s : Nat} (h : isSuccess s = true) :
    isErrorStatus s = false := by
  simp only [isSuccess, Bool.and_eq_true, decide_eq_true_eq] at h
  simp only [isErrorStatus, Bool.and_eq_false_iff, decide_eq_false_iff_not]
  omega

/-- Every char boundary offset of a suffix starting at byte n is at most n
plus the total UTF-8 length of that suffix. -/
theorem mem_boundariesFrom_le {x n : Nat} {cs : List Char}
    (h : x ∈ boundariesFrom n cs) : x ≤ n + (cs.map Char.utf8Size).sum := by
  induction cs generalizing n with
  | nil => simp [boundariesFrom] at h; omega
  | cons c cs ih =>
    simp only [boundariesFrom, List.mem_cons] at h
    rcases h with h | h
    · simp [h]
    · have := ih h
      simp only [List.map_cons, List.sum_cons]
      omega

/-- If the byte-range slice &s[..n] succeeds then n is at most the UTF-8
byte length of s. -/
theorem sliceOk_le {s : String} {n : Nat} (h : sliceOk s n = true) :
    n ≤ utf8Len s := by
  simp only [sliceOk, byteBoundaries] at h
  have hmem : n ∈ boundariesFrom 0 s.data := by
    simpa using List.contains_iff_exists_mem_beq.mp h
  have := mem_boundariesFrom_le hmem
  simpa [utf8Len] using this

/-! ## Claims -/

/-- C1: the commit-assembly sequence chains its six steps strictly in order,
each step's output feeding the next step's documented input.  `chainMock`
answers only the six exact requests of the chain S0 → T0 → B1 → T1 → C1 —
matching method, url and full JSON body — and fails any other request, so
the run reaching Except.ok with the final commit SHA proves
get_base_branch_sha produced S0, get_latest_tree_sha was addressed with S0
and produced T0, create_blob produced B1, create_tree carried base_tree T0
and blob sha B1 and produced T1, create_commit carried tree T1 with sole
parent S0 and produced C1, and update_branch_reference carried sha C1. -/
theorem commit_assembly_chain :
    commitCreationMain "test_token" chainMock = Except.ok "C1" := by rfl

/-- C2: for every token string t that is legal as a header value (so the
HeaderValue construction does not panic), build_auth_headers yields exactly
two entries: authorization mapped to the literal concatenation
"token " ++ t, and accept mapped to "application/vnd.github.v3+json". -/
theorem build_auth_headers_two_entries (t : String)
    (h : legalHeaderValue t = true) :
    build_auth_headers t =
      some [("authorization", "token " ++ t),
            ("accept", "application/vnd.github.v3+json")] := by
  have h1 : legalHeaderValue "token " = true := by decide
  have hall : legalHeaderValue ("token " ++ t) = true := by
    simp only [legalHeaderValue, String.data_append, List.all_append]
    simp only [legalHeaderValue] at h1 h
    rw [h1, h]
    rfl
  have hacc : legalHeaderValue "application/vnd.github.v3+json" = true := by decide
  simp [build_auth_headers, HeaderValue.from_str, hall, hacc]

/-- Witness for C2 at the token of the repository's own unit test. -/
theorem build_auth_headers_two_entries_test :
    legalHeaderValue "test_token" = true ∧
    build_auth_headers "test_token" =
      some [("authorization", "token test_token"),
            ("accept", "application/vnd.github.v3+json")] :=
  ⟨by decide, build_auth_headers_two_entries "test_token" (by decide)⟩

/-- A transport answering every request with 304 Not Modified and an empty
JSON object body. -/
def always304 : Transport := fun _ => some ⟨304, some (Json.obj [])⟩

/-- C3 counterexample: 304 is not a 2xx status, yet GitHubClient::get
returns the raw response rather than an error — Response::error_for_status
only rejects 4xx/5xx, so "every non-2xx GET status becomes a transport
error" already fails at status 304. -/
theorem get_304_not_error :
    isSuccess 304 = false ∧
    GitHubClient.get (GitHubClient.new "t") always304 "/user/repos" =
      Except.ok ⟨304, some (Json.obj [])⟩ :=
  ⟨by decide, rfl⟩

/-- C3 amended: for a GET whose response status is 4xx or 5xx (the statuses
error_for_status rejects), the verb returns the transport-failure error kind
carrying exactly that status — in particular a 404 surfaces as a failure
whose carried status equals 404 — while POST and PATCH return the raw
response regardless of status. -/
theorem verb_status_handling (c : GitHubClient) (T : Transport) (path : String)
    (b : Json) (r : HttpResponse)
    (hget : T (c.get_request path) = some r)
    (hpost : T (c.post_request path b) = some r)
    (hpatch : T (c.patch_request path b) = some r) :
    (isErrorStatus r.status = true →
      c.get T path = Except.error (ReqError.forStatus r.status) ∧
      (ReqError.forStatus r.status).statusOf = some r.status) ∧
    (r.status = 404 →
      c.get T path = Except.error (ReqError.forStatus 404) ∧
      GitHubError.status (GitHubError.RequestError (ReqError.forStatus 404)) =
        some 404) ∧
    c.post T path b = Except.ok r ∧
    c.patch T path b = Except.ok r := by
  refine ⟨fun hs => ⟨?_, rfl⟩, fun h404 => ⟨?_, rfl⟩, ?_, ?_⟩
  · simp [GitHubClient.get, hget, hs]
  · simp [GitHubClient.get, hget, h404, isErrorStatus]
  · simp [GitHubClient.post, hpost]
  · simp [GitHubClient.patch, hpatch]

/-- A transport answering every request with 404 and an empty JSON object
body. -/
def always404 : Transport := fun _ => some ⟨404, some (Json.obj [])⟩

/-- Witness for the amended C3 at a concrete 404 response. -/
theorem verb_status_handling_test :
    (isErrorStatus 404 = true →
      GitHubClient.get (GitHubClient.new "t") always404 "/user/repos" =
        Except.error (ReqError.forStatus 404) ∧
      (ReqError.forStatus 404).statusOf = some 404) ∧
    ((404 : Nat) = 404 →
      GitHubClient.get (GitHubClient.new "t") always404 "/user/repos" =
        Except.error (ReqError.forStatus 404) ∧
      GitHubError.status (GitHubError.RequestError (ReqError.forStatus 404)) =
        some 404) ∧
    GitHubClient.post (GitHubClient.new "t") always404 "/user/repos" (Json.obj []) =
      Except.ok ⟨404, some (Json.obj [])⟩ ∧
    GitHubClient.patch (GitHubClient.new "t") always404 "/user/repos" (Json.obj []) =
      Except.ok ⟨404, some (Json.obj [])⟩ :=
  verb_status_handling (GitHubClient.new "t") always404 "/user/repos"
    (Json.obj []) ⟨404, some (Json.obj [])⟩ rfl rfl rfl

/-- A transport answering every request with 304 and a body carrying a
message field. -/
def always304msg : Transport :=
  fun _ => some ⟨304, some (Json.obj [("message", Json.str "m")])⟩

/-- C9 counterexample: a 304 response passes error_for_status inside get,
reaches the non-success branch of get_base_branch_sha, and surfaces as the
API-error kind — that branch is not unreachable. -/
theorem get_base_branch_sha_304_api_error :
    GitHubClient.get_base_branch_sha (GitHubClient.new "t") always304msg
      "owner" "repo" "main" = Except.error (GitHubError.ApiError 304 "m") := rfl

/-- C9 amended: for 4xx/5xx statuses the claim's reasoning does hold — the
GET verb already converts them into the transport-failure kind, so
get_base_branch_sha and get_latest_tree_sha surface such responses as
RequestError (never ApiError); only non-2xx statuses outside 4xx/5xx reach
their ApiError branch. -/
theorem get_methods_request_error_on_4xx5xx (c : GitHubClient) (T : Transport)
    (owner repo base_branch commit_sha : String) (r1 r2 : HttpResponse)
    (h1 : T (c.get_request (get_base_branch_sha_path owner repo base_branch)) =
      some r1)
    (h2 : T (c.get_request ("/repos/" ++ owner ++ "/" ++ repo ++ "/git/commits/"
      ++ commit_sha)) = some r2)
    (hs1 : isErrorStatus r1.status = true)
    (hs2 : isErrorStatus r2.status = true) :
    c.get_base_branch_sha T owner repo base_branch =
      Except.error (GitHubError.RequestError (ReqError.forStatus r1.status)) ∧
    c.get_latest_tree_sha T owner repo commit_sha =
      Except.error (GitHubError.RequestError (ReqError.forStatus r2.status)) := by
  constructor
  · simp [GitHubClient.get_base_branch_sha, GitHubClient.get, h1, hs1]
  · simp [GitHubClient.get_latest_tree_sha, GitHubClient.get, h2, hs2]

/-- Witness for the amended C9 at a concrete 404 response. -/
theorem get_methods_request_error_on_4xx5xx_test :
    GitHubClient.get_base_branch_sha (GitHubClient.new "t") always404
      "owner" "repo" "main" =
      Except.error (GitHubError.RequestError (ReqError.forStatus 404)) ∧
    GitHubClient.get_latest_tree_sha (GitHubClient.new "t") always404
      "owner" "repo" "abc" =
      Except.error (GitHubError.RequestError (ReqError.forStatus 404)) :=
  get_methods_request_error_on_4xx5xx (GitHubClient.new "t") always404
    "owner" "repo" "main" "abc" ⟨404, some (Json.obj [])⟩ ⟨404, some (Json.obj [])⟩
    rfl rfl (by decide) (by decide)

/-- A transport answering every request with 400 and a body that fails JSON
decoding. -/
def always400Undecodable : Transport := fun _ => some ⟨400, none⟩

/-- C4 counterexample: on a non-success response whose body is undecodable
JSON, the domain method propagates the body-decode failure through `?` as
the RequestError kind — it does not fail with the API-error kind carrying
the default message "Unknown error". -/
theorem create_blob_undecodable_body_request_error :
    GitHubClient.create_blob (GitHubClient.new "t") always400Undecodable
      "owner" "repo" "x" =
      Except.error (GitHubError.RequestError ReqError.decode) ∧
    GitHubError.RequestError ReqError.decode ≠
      GitHubError.ApiError 400 "Unknown error" :=
  ⟨rfl, by decide⟩

/-- C4 amended: when the response status is not a success and the body does
decode as JSON, the domain method extracts field "message" — defaulting to
"Unknown error" when that field is absent or not a string — and fails with
the API-error kind carrying status and message (shown for the two cited
methods create_blob and create_branch); an undecodable body instead
propagates as the request-error kind. -/
theorem api_error_on_failure (c : GitHubClient) (T : Transport)
    (owner repo content name base_sha : String) (r : HttpResponse) (j : Json)
    (hblob : T (c.post_request ("/repos/" ++ owner ++ "/" ++ repo ++ "/git/blobs")
      (create_blob_body content)) = some r)
    (hbranch : T (c.post_request ("/repos/" ++ owner ++ "/" ++ repo ++ "/git/refs")
      (create_branch_body name base_sha)) = some r)
    (hs : isSuccess r.status = false)
    (hb : r.body = some j) :
    c.create_blob T owner repo content =
      Except.error (GitHubError.ApiError r.status (errorMessage j)) ∧
    c.create_branch T owner repo name base_sha =
      Except.error (GitHubError.ApiError r.status (errorMessage j)) ∧
    ((j.getField "message").bind Json.asStr = some (errorMessage j) ∨
      ((j.getField "message").bind Json.asStr = none ∧
        errorMessage j = "Unknown error")) := by
  refine ⟨?_, ?_, ?_⟩
  · simp [GitHubClient.create_blob, GitHubClient.post, hblob, hs, apiFailure, hb]
  · simp [GitHubClient.create_branch, GitHubClient.post, hbranch, hs, apiFailure, hb]
  · unfold errorMessage
    cases hm : (j.getField "message").bind Json.asStr with
    | none => exact Or.inr ⟨rfl, rfl⟩
    | some m => exact Or.inl rfl

/-- Witness for the amended C4 at a concrete 400 response whose decoded body
has no message field. -/
theorem api_error_on_failure_test :
    GitHubClient.create_blob (GitHubClient.new "t") always404 "owner" "repo" "x" =
      Except.error (GitHubError.ApiError 404 "Unknown error") ∧
    GitHubClient.create_branch (GitHubClient.new "t") always404 "owner" "repo"
      "new-feature" "abc" =
      Except.error (GitHubError.ApiError 404 "Unknown error") ∧
    (((Json.obj []).getField "message").bind Json.asStr =
        some (errorMessage (Json.obj [])) ∨
      (((Json.obj []).getField "message").bind Json.asStr = none ∧
        errorMessage (Json.obj []) = "Unknown error")) :=
  api_error_on_failure (GitHubClient.new "t") always404 "owner" "repo" "x"
    "new-feature" "abc" ⟨404, some (Json.obj [])⟩ (Json.obj [])
    rfl rfl (by decide) rfl

/-- C5: on a successful response whose body decodes to j, get_base_branch_sha
returns exactly the string at the field path object.sha, and fails with the
parse-error kind when that path is absent or not a string. -/
theorem get_base_branch_sha_extracts (c : GitHubClient) (T : Transport)
    (owner repo base_branch : String) (r : HttpResponse) (j : Json)
    (hT : T (c.get_request (get_base_branch_sha_path owner repo base_branch)) =
      some r)
    (hs : isSuccess r.status = true)
    (hb : r.body = some j) :
    c.get_base_branch_sha T owner repo base_branch =
      match extractObjectSha j with
      | some s => Except.ok s
      | none =>
        Except.error (GitHubError.ParseError "Failed to extract SHA from response") := by
  have he := isSuccess_isErrorStatus_false hs
  simp [GitHubClient.get_base_branch_sha, GitHubClient.get, hT, he, hs, hb]

/-- The branch-ref response body of the repository's own unit test and of
the spec's example. -/
def refShaBody : Json :=
  Json.obj [("object",
    Json.obj [("sha", Json.str "6dcb09b5b57875f334f61aebed695e2e4193db5e")])]

/-- A transport answering every request with 200 and the example branch-ref
body. -/
def refShaTransport : Transport := fun _ => some ⟨200, some refShaBody⟩

/-- Witness for C5: on the body with object.sha equal to the 40-character
example SHA, get_base_branch_sha returns exactly that string. -/
theorem get_base_branch_sha_extracts_test :
    GitHubClient.get_base_branch_sha (GitHubClient.new "test_token")
      refShaTransport "owner" "repo" "main" =
      Except.ok "6dcb09b5b57875f334f61aebed695e2e4193db5e" :=
  get_base_branch_sha_extracts (GitHubClient.new "test_token") refShaTransport
    "owner" "repo" "main" ⟨200, some refShaBody⟩ refShaBody rfl (by decide) rfl

/-- C6: create_branch POSTs to /repos/{owner}/{repo}/git/refs (appended to
the base URL) a JSON body with exactly the fields ref = "refs/heads/{name}"
and sha = baseSha, and returns success carrying no value on a 2xx
response. -/
theorem create_branch_contract (c : GitHubClient) (T : Transport)
    (owner repo name base_sha : String) (r : HttpResponse)
    (hT : T (c.post_request ("/repos/" ++ owner ++ "/" ++ repo ++ "/git/refs")
      (create_branch_body name base_sha)) = some r)
    (hs : isSuccess r.status = true) :
    c.post_request ("/repos/" ++ owner ++ "/" ++ repo ++ "/git/refs")
        (create_branch_body name base_sha) =
      ⟨Method.POST, c.base_url ++ ("/repos/" ++ owner ++ "/" ++ repo ++ "/git/refs"),
        some (Json.obj [("ref", Json.str ("refs/heads/" ++ name)),
                        ("sha", Json.str base_sha)])⟩ ∧
    c.create_branch T owner repo name base_sha = Except.ok () := by
  refine ⟨rfl, ?_⟩
  simp [GitHubClient.create_branch, GitHubClient.post, hT, hs]

/-- A transport answering every request with 201 Created and the unit test's
created-ref body. -/
def created201 : Transport :=
  fun _ => some ⟨201, some (Json.obj [("ref", Json.str "refs/heads/new-feature"),
    ("object", Json.obj [("sha",
      Json.str "6dcb09b5b57875f334f61aebed695e2e4193db5e")])])⟩

/-- Witness for C6 at the unit test's arguments and a 201 response. -/
theorem create_branch_contract_test :
    GitHubClient.post_request (GitHubClient.new "test_token")
        ("/repos/" ++ "owner" ++ "/" ++ "repo" ++ "/git/refs")
        (create_branch_body "new-feature" "6dcb09b5b57875f334f61aebed695e2e4193db5e") =
      ⟨Method.POST,
        (GitHubClient.new "test_token").base_url ++
          ("/repos/" ++ "owner" ++ "/" ++ "repo" ++ "/git/refs"),
        some (Json.obj [("ref", Json.str ("refs/heads/" ++ "new-feature")),
          ("sha", Json.str "6dcb09b5b57875f334f61aebed695e2e4193db5e")])⟩ ∧
    GitHubClient.create_branch (GitHubClient.new "test_token") created201
      "owner" "repo" "new-feature" "6dcb09b5b57875f334f61aebed695e2e4193db5e" =
      Except.ok () :=
  create_branch_contract (GitHubClient.new "test_token") created201
    "owner" "repo" "new-feature" "6dcb09b5b57875f334f61aebed695e2e4193db5e"
    ⟨201, some (Json.obj [("ref", Json.str "refs/heads/new-feature"),
      ("object", Json.obj [("sha",
        Json.str "6dcb09b5b57875f334f61aebed695e2e4193db5e")])])⟩
    rfl (by decide)

/-- C7: update_branch_reference PATCHes /repos/{owner}/{repo}/git/refs/heads/
{branch} (appended to the base URL) with a JSON body containing exactly
sha = commitSha and force = false, and returns success carrying no value on
a 2xx response. -/
theorem update_branch_reference_contract (c : GitHubClient) (T : Transport)
    (owner repo branch_name commit_sha : String) (r : HttpResponse)
    (hT : T (c.patch_request
      ("/repos/" ++ owner ++ "/" ++ repo ++ "/git/refs/heads/" ++ branch_name)
      (update_branch_reference_body commit_sha)) = some r)
    (hs : isSuccess r.status = true) :
    c.patch_request
        ("/repos/" ++ owner ++ "/" ++ repo ++ "/git/refs/heads/" ++ branch_name)
        (update_branch_reference_body commit_sha) =
      ⟨Method.PATCH,
        c.base_url ++
          ("/repos/" ++ owner ++ "/" ++ repo ++ "/git/refs/heads/" ++ branch_name),
        some (Json.obj [("sha", Json.str commit_sha),
                        ("force", Json.bool false)])⟩ ∧
    c.update_branch_reference T owner repo branch_name commit_sha =
      Except.ok () := by
  refine ⟨rfl, ?_⟩
  simp [GitHubClient.update_branch_reference, GitHubClient.patch, hT, hs]

/-- A transport answering every request with 200 and an empty JSON object
body. -/
def ok200 : Transport := fun _ => some ⟨200, some (Json.obj [])⟩

/-- Witness for C7 at concrete arguments and a 200 response. -/
theorem update_branch_reference_contract_test :
    GitHubClient.patch_request (GitHubClient.new "test_token")
        ("/repos/" ++ "owner" ++ "/" ++ "repo" ++ "/git/refs/heads/" ++ "main")
        (update_branch_reference_body "C1") =
      ⟨Method.PATCH,
        (GitHubClient.new "test_token").base_url ++
          ("/repos/" ++ "owner" ++ "/" ++ "repo" ++ "/git/refs/heads/" ++ "main"),
        some (Json.obj [("sha", Json.str "C1"), ("force", Json.bool false)])⟩ ∧
    GitHubClient.update_branch_reference (GitHubClient.new "test_token") ok200
      "owner" "repo" "main" "C1" = Except.ok () :=
  update_branch_reference_contract (GitHubClient.new "test_token") ok200
    "owner" "repo" "main" "C1" ⟨200, some (Json.obj [])⟩ rfl (by decide)

/-- An empty process environment. -/
def envNone : String → Option String := fun _ => none

/-- An environment where GITHUB_TOKEN is set to the 5-byte value "short". -/
def envShort : String → Option String :=
  fun k => if k == "GITHUB_TOKEN" then some "short" else none

/-- C8: the unset case does fail with the environment-missing error, but at
the set 5-byte value "short", with debug-level logging enabled, from_env
panics evaluating the out-of-bounds slice &token[..10] for the token-prefix
debug log — it does not return a credential holding that value. -/
theorem from_env_short_token_panics :
    AuthToken.from_env envNone true = some (Except.error VarError.NotPresent) ∧
    AuthToken.from_env envNone false = some (Except.error VarError.NotPresent) ∧
    AuthToken.from_env envShort true = none :=
  ⟨rfl, rfl, rfl⟩

/-- C10: with debug-level logging enabled (the configuration in which the
token-prefix debug log evaluates its fields), from_env panics on every
present GITHUB_TOKEN value shorter than 10 bytes, and returns a result only
when the value is at least 10 bytes long. -/
theorem from_env_requires_ten_bytes (env : String → Option String) (tok : String)
    (h : env "GITHUB_TOKEN" = some tok) :
    (utf8Len tok < 10 → AuthToken.from_env env true = none) ∧
    (AuthToken.from_env env true ≠ none → 10 ≤ utf8Len tok) := by
  have key : sliceOk tok 10 = true → 10 ≤ utf8Len tok := fun hsl => sliceOk_le hsl
  constructor
  · intro hlen
    have hso : sliceOk tok 10 = false := by
      cases hcase : sliceOk tok 10 with
      | false => rfl
      | true => exact absurd (key hcase) (by omega)
    simp [AuthToken.from_env, h, hso]
  · intro hres
    by_contra hlt
    cases hcase : sliceOk tok 10 with
    | true => exact hlt (key hcase)
    | false => exact hres (by simp [AuthToken.from_env, h, hcase])

/-- Witness for C10 at the 5-byte token "short". -/
theorem from_env_requires_ten_bytes_test :
    (utf8Len "short" < 10 → AuthToken.from_env envShort true = none) ∧
    (AuthToken.from_env envShort true ≠ none → 10 ≤ utf8Len "short") :=
  from_env_requires_ten_bytes envShort "short" rfl
